import Mathlib

/-!
Shallow embedding of the Immigration Automation Appointment System
(`app/services/rag_service.py`, `app/services/appointment_service.py`,
`app/services/llm_service.py`, `app/workers/email_worker.py`,
`app/models.py`) together with theorems settling the specification
claims about it.

Python strings are modelled by Lean `String`, Python floats by `ℚ`
(all float values reached in the modelled code are small decimal
values, exactly representable), database rows by Lean structures and
tables by lists in insertion (primary key) order, `None` by `Option`.
Calls to external collaborators (vector search, LLM judgment, the
`re`/`json` standard library primitives that extract a JSON object out
of free-form LLM text) are modelled as explicit inputs carrying their
outcome, while every line of the repository's own logic downstream of
those outcomes is translated directly.
-/

namespace ImmigrationApp

/-! ### String primitives mirroring the Python operations used by the code -/

/-- Python `str.lower()` restricted to the ASCII range actually exercised
by the code (non-ASCII characters are left unchanged, as in Python). -/
def lowerStr (s : String) : String := ⟨s.data.map Char.toLower⟩

/-- The whitespace characters stripped by Python `str.strip()`. -/
def isPySpace (c : Char) : Bool :=
  c == ' ' || c == '\t' || c == '\n' || c == '\r' || c == '\x0b' || c == '\x0c'

/-- Python `str.strip()`. -/
def stripStr (s : String) : String :=
  ⟨((s.data.dropWhile isPySpace).reverse.dropWhile isPySpace).reverse⟩

/-- Substring occurrence over character lists (`needle`, then haystack). -/
def listHasSub (need : List Char) : List Char → Bool
  | [] => need.isEmpty
  | c :: rest => need.isPrefixOf (c :: rest) || listHasSub need rest

/-- Python `need in hay` for strings. -/
def strContains (hay need : String) : Bool := listHasSub need.data hay.data

/-- Python `s.startswith(c)` for a single-character argument. -/
def startsWithChar (s : String) (c : Char) : Bool :=
  match s.data with
  | [] => false
  | a :: _ => a == c

/-- Python `s.split('\n')` over the character list: every newline is a
separator, empty pieces are kept. -/
def splitLines : List Char → List (List Char)
  | [] => [[]]
  | c :: rest =>
    match splitLines rest with
    | [] => [[]]
    | line :: lines =>
      if c = '\n' then [] :: line :: lines
      else (c :: line) :: lines

/-- Python `s.split('\n')`. -/
def splitOnNewlines (s : String) : List String :=
  (splitLines s.data).map (fun l => ⟨l⟩)

/-! ### `RAGService._extract_required_documents_from_guideline`
(`app/services/rag_service.py` lines 213-239) -/

/-- The `for line in lines` loop of
`_extract_required_documents_from_guideline`: state is the
`in_requirements_section` flag and the accumulated `required_docs`. -/
def extractLoop : List String → Bool → List String → List String
  | [], _, docs => docs
  | line :: rest, inReq, docs =>
    let lineLower := stripStr (lowerStr line)
    if strContains lineLower "required" &&
        (strContains lineLower "document" || strContains lineLower "valid") then
      extractLoop rest true docs
    else if inReq &&
        (startsWithChar (stripStr line) '-' || startsWithChar (stripStr line) '•') &&
        strContains lineLower "passport" &&
        !((docs.map lowerStr).contains "passport") then
      extractLoop rest inReq (docs ++ ["passport"])
    else
      extractLoop rest inReq docs

/-- `RAGService._extract_required_documents_from_guideline` (the leading
underscore is dropped for Lean).  Scans the guideline text for a
"required documents" header followed by bullet lines mentioning a
passport, with a whole-text keyword fallback. -/
def extract_required_documents_from_guideline (guideline_text : String) : List String :=
  if guideline_text = "" then []
  else
    let guidelineLower := lowerStr guideline_text
    let docs := extractLoop (splitOnNewlines guideline_text) false []
    if docs.isEmpty && strContains guidelineLower "passport" then
      if strContains guidelineLower "required" || strContains guideline_text "-" then
        ["passport"]
      else []
    else docs

/-! ### `RAGService._parse_compliance_analysis`
(`app/services/rag_service.py` lines 241-342)

The front end of the Python function (lines 249-272) extracts a JSON
object from the free-form LLM text with `re.search` and `json.loads`
and keeps the first parse that contains an `is_compliant` key.  Those
standard-library primitives sit outside the embedding; their outcome is
modelled as an explicit `Option ParsedCompliance` input.  Everything
after the JSON attempt — the keyword classification, the score-pattern
defaults and the 100/30 adjustment — is translated line by line. -/

/-- A Python value as it can appear under the `is_compliant` key of the
parsed JSON object (lines 260-268 branch on `bool`, `str`, other). -/
inductive PyVal where
  | pybool (b : Bool)
  | pystr (s : String)
  | pyother (truthy : Bool)
deriving DecidableEq

/-- Lines 260-268: coerce the parsed `is_compliant` value to a boolean
(`str` values via membership in `["true", "yes", "1", "compliant"]`,
anything else via Python truthiness `bool(x)`). -/
def coerceCompliantFlag : PyVal → Bool
  | .pybool b => b
  | .pystr s => ["true", "yes", "1", "compliant"].contains (lowerStr s)
  | .pyother t => t

/-- The JSON object extracted by the regex/`json.loads` front end,
guaranteed to contain `is_compliant`; the remaining keys may be absent
(`compare_with_guidelines` reads them with `.get` defaults). -/
structure ParsedCompliance where
  is_compliant : PyVal
  compliance_score : Option ℚ
  present_documents : Option (List String)
  missing_documents : Option (List String)
  required_documents : Option (List String)
  issues : Option (List String)

/-- Lines 276-281. -/
def negative_indicators : List String :=
  ["not compliant", "non-compliant", "non compliant",
   "missing", "incomplete", "insufficient",
   "does not meet", "doesn't meet", "fails to",
   "rejected", "rejection", "cannot be approved"]

/-- Lines 283-287. -/
def positive_indicators : List String :=
  ["is compliant", "fully compliant", "meets requirements",
   "all required", "complete", "sufficient",
   "approved", "acceptable", "valid"]

/-- The character class `["\s:]` of the regexes on lines 297-299. -/
def isComplianceFillChar (c : Char) : Bool := c == '"' || isPySpace c || c == ':'

/-- `re.search(r'is_compliant["\s:]*WORD', text)` for a literal `WORD`
whose first character is outside the fill class (true of `true` and
`false`), so the greedy star needs no backtracking. -/
def searchComplianceFlagWord (word : List Char) : List Char → Bool
  | [] => false
  | c :: rest =>
    ("is_compliant".data.isPrefixOf (c :: rest) &&
      word.isPrefixOf (((c :: rest).drop "is_compliant".data.length).dropWhile
        isComplianceFillChar)) ||
    searchComplianceFlagWord word rest

/-- Lines 289-309: keyword classification of the raw (lowercased)
response text used when no JSON could be parsed. -/
def fallbackIsCompliant (textLower : String) : Bool :=
  let hasNeg := negative_indicators.any (fun ind => strContains textLower ind)
  let hasPos := positive_indicators.any (fun ind => strContains textLower ind)
  if hasNeg && !hasPos then false
  else if hasPos && !hasNeg then true
  else if strContains textLower "is_compliant" ||
      strContains textLower "\"is_compliant\"" then
    if searchComplianceFlagWord "true".data textLower.data then true
    else if searchComplianceFlagWord "false".data textLower.data then false
    else false
  else
    if strContains textLower "not compliant" || strContains textLower "non-compliant" then
      false
    else if strContains textLower "compliant" then true
    else false

/-- Lines 319-328: the first score-pattern match whose value lies in
`[0, 100]`; `scoreCands` is the sequence of numeric values matched by
the four regex patterns, in pattern order (empty when the text offers
no extractable number). -/
def firstValidScore : List ℚ → Option ℚ
  | [] => none
  | s :: rest => if 0 ≤ s ∧ s ≤ 100 then some s else firstValidScore rest

/-- The dictionary returned by `_parse_compliance_analysis`. -/
structure ComplianceData where
  is_compliant : Bool
  compliance_score : Option ℚ
  present_documents : Option (List String)
  missing_documents : Option (List String)
  required_documents : Option (List String)
  issues : Option (List String)

/-- `RAGService._parse_compliance_analysis` (leading underscore
dropped): returns the parsed JSON when the front end produced one,
otherwise the keyword fallback with default score 50 adjusted to 100
(compliant, score below 50) or 30 (non-compliant, score above 50). -/
def parse_compliance_analysis (jsonOut : Option ParsedCompliance)
    (analysis_text : String) (scoreCands : List ℚ) : ComplianceData :=
  match jsonOut with
  | some parsed =>
    { is_compliant := coerceCompliantFlag parsed.is_compliant
      compliance_score := parsed.compliance_score
      present_documents := parsed.present_documents
      missing_documents := parsed.missing_documents
      required_documents := parsed.required_documents
      issues := parsed.issues }
  | none =>
    let textLower := lowerStr analysis_text
    let isC := fallbackIsCompliant textLower
    let base := (firstValidScore scoreCands).getD 50
    let score : ℚ :=
      if isC ∧ base < 50 then 100
      else if ¬isC ∧ 50 < base then 30
      else base
    { is_compliant := isC
      compliance_score := some score
      present_documents := some []
      missing_documents := some []
      required_documents := some []
      issues := some [analysis_text] }

/-! ### `RAGService.compare_with_guidelines`
(`app/services/rag_service.py` lines 24-211)

Retrieval (`vector_db.search_similar`) and the LLM call are external
collaborators: their outcomes enter as the `guideline_texts` input and
the `(jsonOut, analysis_text, scoreCands)` triple describing the LLM
response.  The optional `request_type` argument only selects which
guidelines are retrieved, so it is absorbed into `guideline_texts`. -/

/-- Lines 169-173. -/
def passport_keywords : List String :=
  ["passport", "passport number", "passport no", "passport #",
   "passport id", "passport document", "travel document",
   "passport page", "passport copy", "passport details"]

/-- The dictionary returned by `compare_with_guidelines` (lines
202-211; the `relevant_guidelines` id list is dropped as purely
external metadata). -/
structure ComplianceVerdict where
  is_compliant : Bool
  compliance_score : ℚ
  present_documents : List String
  missing_documents : List String
  required_documents : List String
  issues : List String
  analysis : String

/-- Python `sep.join(xs)`. -/
def joinWith (sep : String) : List String → String
  | [] => ""
  | [s] => s
  | s :: rest => s ++ sep ++ joinWith sep rest

/-- Lines 162-200: the branch taken when the deterministic guideline
extraction produced a non-empty list — overrides `required_documents`,
applies the passport keyword fallback to `present_documents`, and
recomputes `missing_documents`, `is_compliant` and
`compliance_score`. -/
def overrideVerdict (student_text : String) (student_documents : List String)
    (guideline_required_docs : List String) (compliance_data : ComplianceData)
    (analysis_text : String) : ComplianceVerdict :=
  let present0 := compliance_data.present_documents.getD []
  let combinedLower := lowerStr (student_text ++ " " ++ joinWith " " student_documents)
  let hasPassportKeywords := passport_keywords.any (fun k => strContains combinedLower k)
  let present_docs :=
    if (guideline_required_docs.map lowerStr).contains "passport" &&
        hasPassportKeywords && !((present0.map lowerStr).contains "passport") then
      present0 ++ ["passport"]
    else present0
  let missing_docs := guideline_required_docs.filter
    (fun d => !((present_docs.map lowerStr).contains (lowerStr d)))
  let isC := missing_docs.isEmpty
  let score : ℚ :=
    if isC then 100
    else if 0 < guideline_required_docs.length then
      max 0 ((((guideline_required_docs.length : ℚ) - missing_docs.length) /
        guideline_required_docs.length) * 100)
    else 0
  { is_compliant := isC
    compliance_score := score
    present_documents := present_docs
    missing_documents := missing_docs
    required_documents := guideline_required_docs
    issues := compliance_data.issues.getD []
    analysis := analysis_text }

/-- `RAGService.compare_with_guidelines`: parse the LLM judgment, then
either override with the deterministic guideline extraction (non-empty
case) or pass the parsed fields through with `.get` defaults. -/
def compare_with_guidelines (student_text : String) (student_documents : List String)
    (guideline_texts : List String) (jsonOut : Option ParsedCompliance)
    (analysis_text : String) (scoreCands : List ℚ) : ComplianceVerdict :=
  if extract_required_documents_from_guideline (guideline_texts.headD "") ≠ [] then
    overrideVerdict student_text student_documents
      (extract_required_documents_from_guideline (guideline_texts.headD ""))
      (parse_compliance_analysis jsonOut analysis_text scoreCands) analysis_text
  else
    { is_compliant := (parse_compliance_analysis jsonOut analysis_text scoreCands).is_compliant
      compliance_score :=
        (parse_compliance_analysis jsonOut analysis_text scoreCands).compliance_score.getD 0
      present_documents :=
        (parse_compliance_analysis jsonOut analysis_text scoreCands).present_documents.getD []
      missing_documents :=
        (parse_compliance_analysis jsonOut analysis_text scoreCands).missing_documents.getD []
      required_documents :=
        (parse_compliance_analysis jsonOut analysis_text scoreCands).required_documents.getD []
      issues := (parse_compliance_analysis jsonOut analysis_text scoreCands).issues.getD []
      analysis := analysis_text }

/-! ### Slot allocator (`app/services/appointment_service.py`,
rows of `app/models.py`)

Database rows are modelled as structures; a table is a list in primary
key (insertion) order.  `DateTime` values are integers (seconds). -/

/-- `models.AvailableSlot`. -/
structure AvailableSlot where
  slot_date : ℤ
  slot_time : String
  is_available : Bool
  max_capacity : ℕ
  current_bookings : ℕ
deriving DecidableEq

/-- The filter of the query in `get_next_available_slot` (lines 28-34):
`is_available == True`, `slot_date > now`, `current_bookings < max_capacity`. -/
def slotMatchesQuery (now : ℤ) (s : AvailableSlot) : Bool :=
  s.is_available && decide (now < s.slot_date) && decide (s.current_bookings < s.max_capacity)

/-- `AppointmentService.get_next_available_slot`: the query orders the
matching rows by `slot_date` ascending and takes the first; on equal
dates the row order (insertion order) is kept, i.e. a stable selection.
The result carries the row's position so the caller can write back. -/
def get_next_available_slot (now : ℤ) : List AvailableSlot → Option (ℕ × AvailableSlot)
  | [] => none
  | s :: rest =>
    if slotMatchesQuery now s then
      match get_next_available_slot now rest with
      | some (i, t) =>
        if t.slot_date < s.slot_date then some (i + 1, t) else some (0, s)
      | none => some (0, s)
    else
      (get_next_available_slot now rest).map (fun p => (p.1 + 1, p.2))

/-- `models.Appointment` (the `required_documents` column stores
`str(list)`; the list itself is kept here). -/
structure Appointment where
  id : ℕ
  student_id : ℕ
  request_id : ℕ
  appointment_date : ℤ
  appointment_time : String
  status : String
  location : String
  required_documents : List String
  notes : String
deriving DecidableEq

/-- The slice of database state touched by the allocator. -/
structure SchedulerState where
  slots : List AvailableSlot
  appointments : List Appointment
deriving DecidableEq

/-- Lines 74-76: `current_bookings += 1`, and `is_available = False`
once `current_bookings >= max_capacity`. -/
def bookSlot (s : AvailableSlot) : AvailableSlot :=
  let b := s.current_bookings + 1
  { s with
    current_bookings := b
    is_available := if s.max_capacity ≤ b then false else s.is_available }

/-- `AppointmentService.schedule_appointment` (lines 38-83): pick the
next available slot (`None` → no appointment, state untouched),
otherwise create the appointment row (id = next primary key) and book
the slot. -/
def schedule_appointment (now : ℤ) (student_id request_id : ℕ)
    (required_documents : List String) (st : SchedulerState) :
    Option Appointment × SchedulerState :=
  match get_next_available_slot now st.slots with
  | none => (none, st)
  | some (i, s) =>
    let appt : Appointment :=
      { id := st.appointments.length + 1
        student_id := student_id
        request_id := request_id
        appointment_date := s.slot_date
        appointment_time := s.slot_time
        status := "scheduled"
        location := "Immigration Office - Main Building"
        required_documents := required_documents
        notes := "Automated appointment for request #" ++ toString request_id }
    (some appt,
     { slots := st.slots.set i (bookSlot s)
       appointments := st.appointments ++ [appt] })

/-- A sequence of `n` allocation attempts through
`schedule_appointment` (caller identifiers are irrelevant to the slot
bookkeeping); returns the number of attempts that obtained an
appointment, with the final state. -/
def runAllocationAttempts (now : ℤ) : ℕ → SchedulerState → ℕ × SchedulerState
  | 0, st => (0, st)
  | n + 1, st =>
    let step := schedule_appointment now 0 0 [] st
    let tail := runAllocationAttempts now n step.2
    ((if step.1.isSome then 1 else 0) + tail.1, tail.2)

/-- The slot-table health invariant maintained by the system:
`is_available` mirrors `current_bookings < max_capacity` (rows are
created this way by `create_available_slots` and `bookSlot` keeps the
flag in sync). -/
def SlotsWF (slots : List AvailableSlot) : Prop :=
  ∀ s ∈ slots, s.is_available = decide (s.current_bookings < s.max_capacity)

/-- Total unbooked capacity over the slots dated strictly after `now`. -/
def remainingCapacity (now : ℤ) : List AvailableSlot → ℕ
  | [] => 0
  | s :: rest =>
    (if now < s.slot_date then s.max_capacity - s.current_bookings else 0) +
      remainingCapacity now rest

/-! ### Request rows, the dedup gate and the pipeline status sequence
(`app/workers/email_worker.py`, `app/models.py`) -/

/-- `models.RequestStatus`. -/
inductive RequestStatus where
  | pending
  | processing
  | categorized
  | approved
  | rejected
  | appointment_scheduled
  | completed
deriving DecidableEq

/-- The slice of a `models.Request` row the worker reads and writes
(sender identity is kept as the resolved student email). -/
structure RequestRow where
  id : ℕ
  student_email : String
  email_subject : String
  email_body : String
  status : RequestStatus
  is_compliant : Bool
  compliance_score : ℚ
  appointment_id : Option ℕ
  created_at : ℤ
deriving DecidableEq

/-- An inbound message as handed to `process_email_task`. -/
structure EmailMessage where
  sender : String
  subject : String
  body : String
deriving DecidableEq

/-- `email_worker.py` line 51:
`sender.split("<")[-1].split(">")[0] if "<" in sender else sender`. -/
def extractEmailAddress (sender : String) : String :=
  if strContains sender "<" then
    (((sender.splitOn "<").getLastD "").splitOn ">").headD ""
  else sender

/-- Outcome of the intake/dedup decision of `process_email_task`. -/
inductive IntakeOutcome where
  | skipped (request_id : ℕ)
  | created (request_id : ℕ)
deriving DecidableEq

/-- Line 30: `db.query(Request).filter(Request.email_subject == subject).first()`. -/
def findExistingRequest (db : List RequestRow) (subject : String) : Option RequestRow :=
  db.find? (fun r => r.email_subject == subject)

/-- The `pending` request row created on the non-duplicate path
(lines 53-69). -/
def mkPendingRequest (newId : ℕ) (msg : EmailMessage) (now : ℤ) : RequestRow :=
  { id := newId
    student_email := extractEmailAddress msg.sender
    email_subject := msg.subject
    email_body := msg.body
    status := .pending
    is_compliant := false
    compliance_score := 0
    appointment_id := none
    created_at := now }

/-- The dedup gate of `process_email_task` (lines 29-69): look up the
first request row with the same `email_subject`; if one exists and was
created less than 86400 seconds (24 h) ago, skip with its id and
create nothing; otherwise create a fresh `pending` row.  The sender
plays no part in the lookup. -/
def dedup_gate (db : List RequestRow) (msg : EmailMessage) (now : ℤ) (newId : ℕ) :
    IntakeOutcome × List RequestRow :=
  match findExistingRequest db msg.subject with
  | some existing =>
    if now - existing.created_at < 86400 then (.skipped existing.id, db)
    else (.created newId, db ++ [mkPendingRequest newId msg now])
  | none => (.created newId, db ++ [mkPendingRequest newId msg now])

/-- The scheduling tail of `process_email_task` (lines 200-231): only a
compliant request attempts allocation; success links the appointment
and advances the status, failure leaves the row untouched.  (The
notification call that follows is external and cannot change the row:
its failure is caught and ignored.) -/
def scheduling_stage (now : ℤ) (student_id : ℕ) (req : RequestRow)
    (required_docs : List String) (st : SchedulerState) :
    RequestRow × SchedulerState :=
  if req.is_compliant then
    match schedule_appointment now student_id req.id required_docs st with
    | (some appt, st') =>
      ({ req with appointment_id := some appt.id, status := .appointment_scheduled }, st')
    | (none, st') => (req, st')
  else (req, st)

/-- Where an uncaught exception can leave `process_email_task`: after
the `pending` insert but before the `processing` commit (attachment
loop, lines 71-166), between the `processing` and `categorized`
commits (RAG call, lines 175-181), or after `categorized` during
allocation (lines 200-213).  Categorization and notification failures
are caught locally and do not abort.  `duringIntake` is a failure
before any row is committed. -/
inductive AbortPoint where
  | duringIntake
  | duringExtraction
  | duringCompliance
  | duringScheduling
  | noAbort
deriving DecidableEq

/-- The sequence of `status` values committed for one request by
`process_email_task`, as a function of where (if anywhere) the run
aborts, whether the request is compliant, and whether a slot was
obtained: `pending` at creation (line 65), `processing` (line 167),
`categorized` (line 196), `appointment_scheduled` (line 211, only for
a compliant request with an allocated slot). -/
def pipelineStatusTrace (abort : AbortPoint) (compliant slotObtained : Bool) :
    List RequestStatus :=
  match abort with
  | .duringIntake => []
  | .duringExtraction => [.pending]
  | .duringCompliance => [.pending, .processing]
  | .duringScheduling => [.pending, .processing, .categorized]
  | .noAbort =>
    [.pending, .processing, .categorized] ++
      (if compliant && slotObtained then [.appointment_scheduled] else [])

/-- The full pipeline-driven status chain, in order. -/
def pipelineStatusChain : List RequestStatus :=
  [.pending, .processing, .categorized, .appointment_scheduled]

/-! ### `LLMService` categorization (`app/services/llm_service.py`)

As with the compliance parse, the `re.search(r'\x7b.*\x7d', ...)` +
`json.loads` front end of `_parse_categorization` (lines 83-86) is an
external primitive whose outcome enters as an `Option
ParsedCategorization`; a `float()` conversion failure on the
`confidence` value raises and lands in the same fallback, so it is
folded into the `none` case. -/

/-- `models.RequestType`. -/
inductive RequestType where
  | residence_permit_extension
  | residence_permit_new
  | visa_extension
  | temporary_visa
  | work_permit
  | other
deriving DecidableEq

/-- The `category_map` dictionary (lines 90-97) read through
`.get(category, RequestType.OTHER)` (line 100). -/
def categoryMap (category : String) : RequestType :=
  if category = "residence_permit_extension" then .residence_permit_extension
  else if category = "residence_permit_new" then .residence_permit_new
  else if category = "visa_extension" then .visa_extension
  else if category = "temporary_visa" then .temporary_visa
  else if category = "work_permit" then .work_permit
  else .other

/-- The JSON object extracted by the front end of
`_parse_categorization`; every key may be absent (read with `.get`
defaults on lines 87 and 100-103). -/
structure ParsedCategorization where
  category : Option String
  confidence : Option ℚ
  explanation : Option String
  key_info : Option String

/-- The dictionary returned by `_parse_categorization`. -/
structure Categorization where
  category : RequestType
  confidence : ℚ
  explanation : String
  key_info : String
  raw_response : String

/-- `LLMService._parse_categorization` (leading underscore dropped):
map the parsed fields through their defaults, or fall back to
`other`/0 with the raw text preserved. -/
def parse_categorization (jsonOut : Option ParsedCategorization)
    (response_text : String) : Categorization :=
  match jsonOut with
  | some parsed =>
    { category := categoryMap (parsed.category.getD "other")
      confidence := parsed.confidence.getD 0
      explanation := parsed.explanation.getD ""
      key_info := parsed.key_info.getD ""
      raw_response := response_text }
  | none =>
    { category := .other
      confidence := 0
      explanation := "Could not parse LLM response"
      key_info := ""
      raw_response := response_text }

/-- `LLMService.categorize_request` (lines 22-73): the subject, body
and document texts only feed the prompt of the external LLM call; the
returned dictionary is the parse of the LLM's response. -/
def categorize_request (email_subject email_body : String)
    (documents_text : List String) (jsonOut : Option ParsedCategorization)
    (response_text : String) : Categorization :=
  parse_categorization jsonOut response_text

/-- Concrete slot pool for witnesses: three future one-seat slots, the
two earliest sharing a date (a tie broken by insertion order). -/
def sampleSlotPool : List AvailableSlot :=
  [{ slot_date := 10, slot_time := "09:00", is_available := true,
     max_capacity := 1, current_bookings := 0 },
   { slot_date := 5, slot_time := "10:30", is_available := true,
     max_capacity := 1, current_bookings := 0 },
   { slot_date := 5, slot_time := "12:00", is_available := true,
     max_capacity := 1, current_bookings := 0 }]

/-- Concrete slot pool with its only future slot at capacity, plus a
past slot — no slot is allocatable at time 0. -/
def sampleFullSlotPool : List AvailableSlot :=
  [{ slot_date := 10, slot_time := "09:00", is_available := false,
     max_capacity := 1, current_bookings := 1 },
   { slot_date := -3, slot_time := "14:00", is_available := true,
     max_capacity := 1, current_bookings := 0 }]

/-- Concrete compliant request sitting at `categorized` with no
appointment, for the no-slot-available witness. -/
def sampleCategorizedRequest : RequestRow :=
  { id := 7
    student_email := "alice@example.com"
    email_subject := "Residence permit extension"
    email_body := "please extend"
    status := .categorized
    is_compliant := true
    compliance_score := 100
    appointment_id := none
    created_at := 0 }

/-- Concrete one-row request table used by the dedup counterexample:
a request from `alice@example.com` with subject "Visa extension
request", created at time 0. -/
def sampleDedupDb : List RequestRow :=
  [{ id := 1
     student_email := "alice@example.com"
     email_subject := "Visa extension request"
     email_body := ""
     status := .pending
     is_compliant := false
     compliance_score := 0
     appointment_id := none
     created_at := 0 }]

/-! ## Theorems -/

/-- The accumulator of the extraction loop only ever grows from `[]`
to `["passport"]`, and never past it. -/
theorem extractLoop_empty_or_passport :
    ∀ (lines : List String) (b : Bool) (docs : List String),
      docs = [] ∨ docs = ["passport"] →
      extractLoop lines b docs = [] ∨ extractLoop lines b docs = ["passport"] := by
  intro lines
  induction lines with
  | nil => intro b docs h; simpa [extractLoop] using h
  | cons line rest ih =>
    intro b docs h
    simp only [extractLoop]
    split
    · exact ih true docs h
    · split
      · rcases h with rfl | rfl
        · simpa using ih b ["passport"] (Or.inr rfl)
        · rename_i hguard
          have hc : lowerStr "passport" = "passport" := by decide
          simp [hc] at hguard
      · exact ih b docs h

/-- C10: for every guideline text,
`_extract_required_documents_from_guideline` returns either the empty
list or exactly `["passport"]`, so the deterministic override can never
require any document type other than "passport". -/
theorem c10_extraction_passport_only (guideline_text : String) :
    extract_required_documents_from_guideline guideline_text = [] ∨
    extract_required_documents_from_guideline guideline_text = ["passport"] := by
  simp only [extract_required_documents_from_guideline]
  split
  · exact Or.inl rfl
  · split
    · split
      · exact Or.inr rfl
      · exact Or.inl rfl
    · exact extractLoop_empty_or_passport _ false [] (Or.inl rfl)

/-- C8: for every pipeline run of a single request — whatever stage
fails and wherever the run stops — the sequence of committed statuses
is a prefix (`List.take` of some length) of
`pending, processing, categorized, appointment_scheduled`: no skips,
no reversals. -/
theorem c8_status_monotone (abort : AbortPoint) (compliant slotObtained : Bool) :
    ∃ k, pipelineStatusTrace abort compliant slotObtained = pipelineStatusChain.take k := by
  cases abort <;> cases compliant <;> cases slotObtained <;>
    first
    | exact ⟨0, rfl⟩
    | exact ⟨1, rfl⟩
    | exact ⟨2, rfl⟩
    | exact ⟨3, rfl⟩
    | exact ⟨4, rfl⟩

/-- C9 counterexample: a judgment response whose JSON reports
`confidence: 85` — exactly the 0–100 scale the prompt asks for — is
passed through `categorize_request` verbatim, so the returned
confidence is 85, outside `[0, 1]`.  The claim that the confidence
always lies in `[0, 1]` is false. -/
theorem c9_confidence_counterexample :
    (categorize_request "Visa extension" "please extend my visa" []
        (some { category := some "visa_extension", confidence := some 85,
                explanation := some "clear request", key_info := some "" })
        "json response").confidence = 85 ∧
    ¬((categorize_request "Visa extension" "please extend my visa" []
        (some { category := some "visa_extension", confidence := some 85,
                explanation := some "clear request", key_info := some "" })
        "json response").confidence ≤ 1) := by
  constructor
  · rfl
  · decide

/-- C9 amended: `categorize_request` passes the judgment's parsed
confidence through unchanged (0 when absent or unparsable), so the
returned confidence lies in `[0, 100]` — the prompt's requested scale —
whenever the judgment's reported value does; it is not scaled into
`[0, 1]`. -/
theorem c9_confidence_range (email_subject email_body : String)
    (documents_text : List String) (jsonOut : Option ParsedCategorization)
    (response_text : String)
    (hconf : ∀ p, jsonOut = some p → ∀ c, p.confidence = some c → 0 ≤ c ∧ c ≤ 100) :
    0 ≤ (categorize_request email_subject email_body documents_text jsonOut
          response_text).confidence ∧
      (categorize_request email_subject email_body documents_text jsonOut
          response_text).confidence ≤ 100 := by
  cases jsonOut with
  | none =>
    constructor <;> norm_num [categorize_request, parse_categorization]
  | some p =>
    cases hc : p.confidence with
    | none =>
      constructor <;> simp [categorize_request, parse_categorization, hc]
    | some c =>
      have h := hconf p rfl c hc
      constructor <;> simp [categorize_request, parse_categorization, hc]
      · exact h.1
      · exact h.2

/-- Witness for C9: a judgment reporting confidence 95 (within 0–100)
yields a confidence in `[0, 100]`. -/
theorem c9_confidence_range_witness :
    (∀ p, (some { category := some "other", confidence := some (95 : ℚ),
                  explanation := some "ok", key_info := some "" } :
            Option ParsedCategorization) = some p →
        ∀ c, p.confidence = some c → 0 ≤ c ∧ c ≤ 100) ∧
    (0 ≤ (categorize_request "Subject" "Body" []
          (some { category := some "other", confidence := some 95,
                  explanation := some "ok", key_info := some "" })
          "resp").confidence ∧
      (categorize_request "Subject" "Body" []
          (some { category := some "other", confidence := some 95,
                  explanation := some "ok", key_info := some "" })
          "resp").confidence ≤ 100) := by
  have h : ∀ p, (some { category := some "other", confidence := some (95 : ℚ),
                        explanation := some "ok", key_info := some "" } :
        Option ParsedCategorization) = some p →
      ∀ c, p.confidence = some c → 0 ≤ c ∧ c ≤ 100 := by
    intro p hp c hc
    injection hp with h1
    subst h1
    injection hc with h2
    subst h2
    constructor <;> norm_num
  exact ⟨h, c9_confidence_range "Subject" "Body" [] _ "resp" h⟩

/-- C4 counterexample: on the unparsable text "not compliant" — which
contains the negative indicator, no positive indicator, and no numeric
score — the fallback yields `is_compliant = false` with
`compliance_score = 50`, not 30: the 30 adjustment only fires when an
extracted score strictly exceeds 50, and the default is exactly 50. -/
theorem c4_fallback_score_counterexample :
    (parse_compliance_analysis none "not compliant" []).is_compliant = false ∧
    (parse_compliance_analysis none "not compliant" []).compliance_score = some 50 ∧
    (parse_compliance_analysis none "not compliant" []).compliance_score ≠ some 30 := by
  refine ⟨?_, ?_, ?_⟩ <;> decide

/-- C4 amended: for every judgment response with no parsable JSON,
containing "not compliant", no positive-indicator keyword and no
extractable numeric score, the fallback yields `is_compliant = false`
and `compliance_score = 50` (the unadjusted default). -/
theorem c4_fallback_negative_classification (analysis_text : String)
    (scoreCands : List ℚ)
    (hneg : strContains (lowerStr analysis_text) "not compliant" = true)
    (hpos : ∀ ind ∈ positive_indicators,
      strContains (lowerStr analysis_text) ind = false)
    (hscore : firstValidScore scoreCands = none) :
    (parse_compliance_analysis none analysis_text scoreCands).is_compliant = false ∧
    (parse_compliance_analysis none analysis_text scoreCands).compliance_score = some 50 := by
  have hasNeg :
      negative_indicators.any (fun ind => strContains (lowerStr analysis_text) ind) = true := by
    apply List.any_eq_true.mpr
    exact ⟨"not compliant", by simp [negative_indicators], hneg⟩
  have hasPos :
      positive_indicators.any (fun ind => strContains (lowerStr analysis_text) ind) = false := by
    apply List.any_eq_false.mpr
    intro x hx
    simp [hpos x hx]
  have hflag : fallbackIsCompliant (lowerStr analysis_text) = false := by
    simp only [fallbackIsCompliant, hasNeg, hasPos]
    rfl
  constructor
  · simp only [parse_compliance_analysis, hflag]
  · simp only [parse_compliance_analysis, hflag, hscore]
    norm_num

/-- Witness for C4: the concrete text "Document review: NOT COMPLIANT"
satisfies the hypotheses and is classified non-compliant with score 50. -/
theorem c4_fallback_negative_classification_witness :
    (strContains (lowerStr "Document review: NOT COMPLIANT") "not compliant" = true ∧
      (∀ ind ∈ positive_indicators,
        strContains (lowerStr "Document review: NOT COMPLIANT") ind = false) ∧
      firstValidScore [] = none) ∧
    ((parse_compliance_analysis none "Document review: NOT COMPLIANT" []).is_compliant
        = false ∧
      (parse_compliance_analysis none "Document review: NOT COMPLIANT" []).compliance_score
        = some 50) :=
  ⟨⟨by decide, by decide, rfl⟩,
    c4_fallback_negative_classification "Document review: NOT COMPLIANT" []
      (by decide) (by decide) rfl⟩

/-- Field lemma: the override branch installs the deterministic
extraction as `required_documents`. -/
theorem overrideVerdict_required (a : String) (b R : List String)
    (cd : ComplianceData) (t : String) :
    (overrideVerdict a b R cd t).required_documents = R := rfl

/-- Field lemma: the override branch recomputes `missing_documents` as
the case-insensitive difference of the required list against the
(keyword-completed) present list. -/
theorem overrideVerdict_missing (a : String) (b R : List String)
    (cd : ComplianceData) (t : String) :
    (overrideVerdict a b R cd t).missing_documents =
      R.filter (fun d =>
        !(((overrideVerdict a b R cd t).present_documents.map lowerStr).contains
          (lowerStr d))) := rfl

/-- Field lemma: the override branch sets `is_compliant` to emptiness
of the recomputed missing list. -/
theorem overrideVerdict_compliant (a : String) (b R : List String)
    (cd : ComplianceData) (t : String) :
    (overrideVerdict a b R cd t).is_compliant =
      (overrideVerdict a b R cd t).missing_documents.isEmpty := rfl

/-- Field lemma: the score computed by the override branch. -/
theorem overrideVerdict_score (a : String) (b R : List String)
    (cd : ComplianceData) (t : String) :
    (overrideVerdict a b R cd t).compliance_score =
      (if (overrideVerdict a b R cd t).missing_documents.isEmpty then (100 : ℚ)
       else if 0 < R.length then
         max 0 ((((R.length : ℚ) -
           (overrideVerdict a b R cd t).missing_documents.length) / R.length) * 100)
       else 0) := rfl

/-- When the deterministic extraction is non-empty,
`compare_with_guidelines` returns the override branch. -/
theorem compare_override (st : String) (docs gts : List String)
    (j : Option ParsedCompliance) (raw : String) (sc : List ℚ)
    (hov : extract_required_documents_from_guideline (gts.headD "") ≠ []) :
    compare_with_guidelines st docs gts j raw sc =
      overrideVerdict st docs
        (extract_required_documents_from_guideline (gts.headD ""))
        (parse_compliance_analysis j raw sc) raw := by
  unfold compare_with_guidelines
  rw [if_pos hov]

/-- C1 counterexample: on the parse-failure fallback path with an
empty guideline retrieval (so the deterministic extraction is empty),
`compare_with_guidelines` returns `is_compliant = false` together with
`missing_documents = []` — the claimed equivalence between compliance
and empty missing-document list fails on this return path. -/
theorem c1_invariant_counterexample :
    (compare_with_guidelines "" [] [] none "not compliant" []).is_compliant = false ∧
    (compare_with_guidelines "" [] [] none "not compliant" []).missing_documents = [] := by
  constructor <;> decide

/-- C1 amended: the invariant `is_compliant ↔ missing_documents = []`,
with `compliance_score = 100` for compliant verdicts, holds on the
return path where the deterministic guideline extraction is non-empty
(the override branch); on the parse-failure fallback and
empty-extraction paths the judgment's fields pass through and the
invariant can fail. -/
theorem c1_compliance_invariant_on_override_path (student_text : String)
    (student_documents guideline_texts : List String)
    (jsonOut : Option ParsedCompliance) (analysis_text : String) (scoreCands : List ℚ)
    (hov : extract_required_documents_from_guideline (guideline_texts.headD "") ≠ []) :
    ((compare_with_guidelines student_text student_documents guideline_texts jsonOut
        analysis_text scoreCands).is_compliant = true ↔
      (compare_with_guidelines student_text student_documents guideline_texts jsonOut
        analysis_text scoreCands).missing_documents = []) ∧
    ((compare_with_guidelines student_text student_documents guideline_texts jsonOut
        analysis_text scoreCands).is_compliant = true →
      (compare_with_guidelines student_text student_documents guideline_texts jsonOut
        analysis_text scoreCands).compliance_score = 100) := by
  rw [compare_override _ _ _ _ _ _ hov]
  constructor
  · rw [overrideVerdict_compliant, List.isEmpty_iff]
  · intro h
    rw [overrideVerdict_compliant] at h
    rw [overrideVerdict_score, if_pos h]

/-- Witness for C1 (amended): a guideline enumerating only a passport
together with a submission mentioning a passport. -/
theorem c1_compliance_invariant_witness :
    (extract_required_documents_from_guideline
        ((["A valid passport is required."] : List String).headD "") ≠ []) ∧
    (((compare_with_guidelines "I attach my passport copy." []
        ["A valid passport is required."] none "no json here" []).is_compliant = true ↔
      (compare_with_guidelines "I attach my passport copy." []
        ["A valid passport is required."] none "no json here" []).missing_documents = []) ∧
    ((compare_with_guidelines "I attach my passport copy." []
        ["A valid passport is required."] none "no json here" []).is_compliant = true →
      (compare_with_guidelines "I attach my passport copy." []
        ["A valid passport is required."] none "no json here" []).compliance_score = 100)) :=
  ⟨by decide,
    c1_compliance_invariant_on_override_path "I attach my passport copy." []
      ["A valid passport is required."] none "no json here" [] (by decide)⟩

/-- C5: whenever the deterministic guideline extraction is non-empty,
the verdict's `required_documents` is exactly that list (overriding
the judgment), `missing_documents` is the case-insensitive set
difference of it against the verdict's `present_documents`, and
`compliance_score` is 100 when nothing is missing and
`(|required| − |missing|) / |required| × 100` otherwise. -/
theorem c5_override_recomputation (student_text : String)
    (student_documents guideline_texts : List String)
    (jsonOut : Option ParsedCompliance) (analysis_text : String) (scoreCands : List ℚ)
    (v : ComplianceVerdict)
    (hov : extract_required_documents_from_guideline (guideline_texts.headD "") ≠ [])
    (hv : v = compare_with_guidelines student_text student_documents guideline_texts
      jsonOut analysis_text scoreCands) :
    v.required_documents =
      extract_required_documents_from_guideline (guideline_texts.headD "") ∧
    v.missing_documents =
      v.required_documents.filter
        (fun d => !((v.present_documents.map lowerStr).contains (lowerStr d))) ∧
    (v.missing_documents = [] → v.compliance_score = 100) ∧
    (v.missing_documents ≠ [] →
      v.compliance_score =
        ((v.required_documents.length : ℚ) - v.missing_documents.length) /
          v.required_documents.length * 100) := by
  rw [compare_override _ _ _ _ _ _ hov] at hv
  subst hv
  refine ⟨overrideVerdict_required _ _ _ _ _, ?_, ?_, ?_⟩
  · rw [overrideVerdict_required]
    exact overrideVerdict_missing _ _ _ _ _
  · intro h
    rw [overrideVerdict_score, if_pos (List.isEmpty_iff.mpr h)]
  · intro h
    rw [overrideVerdict_required]
    have hne : (overrideVerdict student_text student_documents
        (extract_required_documents_from_guideline (guideline_texts.headD ""))
        (parse_compliance_analysis jsonOut analysis_text scoreCands)
        analysis_text).missing_documents.isEmpty = false := by
      rcases hm : (overrideVerdict student_text student_documents
          (extract_required_documents_from_guideline (guideline_texts.headD ""))
          (parse_compliance_analysis jsonOut analysis_text scoreCands)
          analysis_text).missing_documents with _ | ⟨a, l⟩
      · exact absurd hm h
      · rfl
    rw [overrideVerdict_score, hne]
    simp only [Bool.false_eq_true, if_false]
    have hlen : 0 < (extract_required_documents_from_guideline
        (guideline_texts.headD "")).length := List.length_pos.mpr hov
    rw [if_pos hlen]
    have hle : (overrideVerdict student_text student_documents
        (extract_required_documents_from_guideline (guideline_texts.headD ""))
        (parse_compliance_analysis jsonOut analysis_text scoreCands)
        analysis_text).missing_documents.length ≤
        (extract_required_documents_from_guideline (guideline_texts.headD "")).length := by
      rw [overrideVerdict_missing]
      exact List.length_filter_le _ _
    apply max_eq_right
    apply mul_nonneg _ (by norm_num)
    apply div_nonneg _ (by positivity)
    rw [sub_nonneg]
    exact_mod_cast hle

/-- Witness for C5: the passport-only guideline with a submission
mentioning a passport exercises the override branch. -/
theorem c5_override_recomputation_witness :
    (extract_required_documents_from_guideline
        ((["A valid passport is required."] : List String).headD "") ≠ [] ∧
      compare_with_guidelines "Here is my passport number X123." []
          ["A valid passport is required."] none "unparsable" [] =
        compare_with_guidelines "Here is my passport number X123." []
          ["A valid passport is required."] none "unparsable" []) ∧
    ((compare_with_guidelines "Here is my passport number X123." []
        ["A valid passport is required."] none "unparsable" []).required_documents =
      extract_required_documents_from_guideline
        ((["A valid passport is required."] : List String).headD "") ∧
    (compare_with_guidelines "Here is my passport number X123." []
        ["A valid passport is required."] none "unparsable" []).missing_documents =
      (compare_with_guidelines "Here is my passport number X123." []
          ["A valid passport is required."] none "unparsable" []).required_documents.filter
        (fun d =>
          !(((compare_with_guidelines "Here is my passport number X123." []
              ["A valid passport is required."] none "unparsable" []).present_documents.map
                lowerStr).contains (lowerStr d))) ∧
    ((compare_with_guidelines "Here is my passport number X123." []
        ["A valid passport is required."] none "unparsable" []).missing_documents = [] →
      (compare_with_guidelines "Here is my passport number X123." []
        ["A valid passport is required."] none "unparsable" []).compliance_score = 100) ∧
    ((compare_with_guidelines "Here is my passport number X123." []
        ["A valid passport is required."] none "unparsable" []).missing_documents ≠ [] →
      (compare_with_guidelines "Here is my passport number X123." []
        ["A valid passport is required."] none "unparsable" []).compliance_score =
        (((compare_with_guidelines "Here is my passport number X123." []
            ["A valid passport is required."] none "unparsable" []).required_documents.length : ℚ) -
          (compare_with_guidelines "Here is my passport number X123." []
            ["A valid passport is required."] none "unparsable" []).missing_documents.length) /
          (compare_with_guidelines "Here is my passport number X123." []
            ["A valid passport is required."] none "unparsable" []).required_documents.length *
          100)) :=
  ⟨⟨by decide, rfl⟩,
    c5_override_recomputation "Here is my passport number X123." []
      ["A valid passport is required."] none "unparsable" [] _ (by decide) rfl⟩

/-- The slot query returns `none` exactly when no row passes its
filter. -/
theorem get_next_none_iff (now : ℤ) :
    ∀ slots : List AvailableSlot,
      get_next_available_slot now slots = none ↔
        ∀ s ∈ slots, slotMatchesQuery now s = false := by
  intro slots
  induction slots with
  | nil => simp [get_next_available_slot]
  | cons s rest ih =>
    by_cases hs : slotMatchesQuery now s = true
    · constructor
      · intro h
        exfalso
        simp only [get_next_available_slot, if_pos hs] at h
        cases hnext : get_next_available_slot now rest with
        | none => rw [hnext] at h; exact Option.noConfusion h
        | some p =>
          rcases p with ⟨i, t⟩
          rw [hnext] at h
          have h' : (if t.slot_date < s.slot_date then some (i + 1, t)
              else some (0, s) : Option (ℕ × AvailableSlot)) = none := h
          by_cases hlt : t.slot_date < s.slot_date
          · rw [if_pos hlt] at h'; exact Option.noConfusion h'
          · rw [if_neg hlt] at h'; exact Option.noConfusion h'
      · intro h
        exact absurd (h s (List.mem_cons_self s rest)) (by simp [hs])
    · have hs' : slotMatchesQuery now s = false := Bool.eq_false_iff.mpr hs
      simp only [get_next_available_slot, if_neg hs, Option.map_eq_none']
      rw [ih]
      constructor
      · intro h x hx
        rcases List.mem_cons.mp hx with rfl | hx'
        · exact hs'
        · exact h x hx'
      · intro h x hx
        exact h x (List.mem_cons_of_mem s hx)

/-- Soundness of the slot query's selection: the returned position
holds the returned slot, it passes the filter, and among all rows
passing the filter it has the least date, earliest position on date
ties. -/
theorem get_next_spec (now : ℤ) :
    ∀ (slots : List AvailableSlot) (i : ℕ) (t : AvailableSlot),
      get_next_available_slot now slots = some (i, t) →
      slots[i]? = some t ∧ slotMatchesQuery now t = true ∧
        ∀ j u, slots[j]? = some u → slotMatchesQuery now u = true →
          t.slot_date ≤ u.slot_date ∧ (u.slot_date ≤ t.slot_date → i ≤ j) := by
  intro slots
  induction slots with
  | nil => intro i t h; simp [get_next_available_slot] at h
  | cons s rest ih =>
    intro i t h
    by_cases hs : slotMatchesQuery now s = true
    · simp only [get_next_available_slot, if_pos hs] at h
      cases hnext : get_next_available_slot now rest with
      | none =>
        rw [hnext] at h
        injection h with h1
        rw [Prod.mk.injEq] at h1
        obtain ⟨hi, ht⟩ := h1
        subst hi; subst ht
        refine ⟨List.getElem?_cons_zero, hs, ?_⟩
        intro j u hj hu
        cases j with
        | zero =>
          rw [List.getElem?_cons_zero] at hj
          injection hj with hj; subst hj
          exact ⟨le_refl _, fun _ => le_refl 0⟩
        | succ j0 =>
          rw [List.getElem?_cons_succ] at hj
          have := (get_next_none_iff now rest).mp hnext u (List.getElem?_mem hj)
          rw [this] at hu
          exact Bool.noConfusion hu
      | some p =>
        rcases p with ⟨i0, t0⟩
        rw [hnext] at h
        have h' : (if t0.slot_date < s.slot_date then some (i0 + 1, t0)
            else some (0, s) : Option (ℕ × AvailableSlot)) = some (i, t) := h
        obtain ⟨h0, hpred0, hmin0⟩ := ih i0 t0 hnext
        by_cases hlt : t0.slot_date < s.slot_date
        · rw [if_pos hlt] at h'
          injection h' with h1
          rw [Prod.mk.injEq] at h1
          obtain ⟨hi, ht⟩ := h1
          subst hi; subst ht
          refine ⟨by rw [List.getElem?_cons_succ]; exact h0, hpred0, ?_⟩
          intro j u hj hu
          cases j with
          | zero =>
            rw [List.getElem?_cons_zero] at hj
            injection hj with hj; subst hj
            exact ⟨le_of_lt hlt, fun hle => absurd hlt (not_lt.mpr hle)⟩
          | succ j0 =>
            rw [List.getElem?_cons_succ] at hj
            have := hmin0 j0 u hj hu
            exact ⟨this.1, fun hle => Nat.succ_le_succ (this.2 hle)⟩
        · rw [if_neg hlt] at h'
          injection h' with h1
          rw [Prod.mk.injEq] at h1
          obtain ⟨hi, ht⟩ := h1
          subst hi; subst ht
          refine ⟨List.getElem?_cons_zero, hs, ?_⟩
          intro j u hj hu
          cases j with
          | zero =>
            rw [List.getElem?_cons_zero] at hj
            injection hj with hj; subst hj
            exact ⟨le_refl _, fun _ => le_refl 0⟩
          | succ j0 =>
            rw [List.getElem?_cons_succ] at hj
            have h1 := hmin0 j0 u hj hu
            have hst : s.slot_date ≤ t0.slot_date := not_lt.mp hlt
            exact ⟨le_trans hst h1.1, fun _ => Nat.zero_le _⟩
    · simp only [get_next_available_slot, if_neg hs, Option.map_eq_some'] at h
      obtain ⟨⟨i0, t0⟩, hrest, heq⟩ := h
      rw [Prod.mk.injEq] at heq
      obtain ⟨hi, ht⟩ := heq
      subst hi; subst ht
      obtain ⟨h0, hp0, hm0⟩ := ih i0 t0 hrest
      refine ⟨by rw [List.getElem?_cons_succ]; exact h0, hp0, ?_⟩
      intro j u hj hu
      cases j with
      | zero =>
        rw [List.getElem?_cons_zero] at hj
        injection hj with hj; subst hj
        rw [hu] at hs
        exact absurd rfl hs
      | succ j0 =>
        rw [List.getElem?_cons_succ] at hj
        have := hm0 j0 u hj hu
        exact ⟨this.1, fun hle => Nat.succ_le_succ (this.2 hle)⟩

/-- Under the slot-table health invariant, passing the query filter is
exactly "dated strictly in the future and below capacity". -/
theorem slotMatchesQuery_iff (now : ℤ) (s : AvailableSlot)
    (hw : s.is_available = decide (s.current_bookings < s.max_capacity)) :
    slotMatchesQuery now s = true ↔
      now < s.slot_date ∧ s.current_bookings < s.max_capacity := by
  simp only [slotMatchesQuery, hw, Bool.and_eq_true, decide_eq_true_eq]
  constructor
  · rintro ⟨⟨_, h2⟩, h3⟩
    exact ⟨h2, h3⟩
  · rintro ⟨h1, h2⟩
    exact ⟨⟨h2, h1⟩, h2⟩

/-- C6: on a healthy slot table, `get_next_available_slot` returns
`none` exactly when no slot is dated strictly in the future with spare
capacity; otherwise it returns an available slot of minimal date,
earliest in insertion order among equal dates. -/
theorem c6_slot_selection_policy (now : ℤ) (slots : List AvailableSlot)
    (hwf : SlotsWF slots) :
    (get_next_available_slot now slots = none ↔
      ∀ s ∈ slots, ¬(now < s.slot_date ∧ s.current_bookings < s.max_capacity)) ∧
    ∀ i t, get_next_available_slot now slots = some (i, t) →
      slots[i]? = some t ∧ now < t.slot_date ∧
      t.current_bookings < t.max_capacity ∧
      ∀ j u, slots[j]? = some u → now < u.slot_date →
        u.current_bookings < u.max_capacity →
        t.slot_date ≤ u.slot_date ∧ (u.slot_date ≤ t.slot_date → i ≤ j) := by
  constructor
  · rw [get_next_none_iff]
    constructor
    · intro h s hs hcontra
      have hf := h s hs
      have ht := (slotMatchesQuery_iff now s (hwf s hs)).mpr hcontra
      rw [hf] at ht
      exact Bool.noConfusion ht
    · intro h s hs
      apply Bool.eq_false_iff.mpr
      intro hp
      exact h s hs ((slotMatchesQuery_iff now s (hwf s hs)).mp hp)
  · intro i t h
    obtain ⟨hget, hpred, hmin⟩ := get_next_spec now slots i t h
    obtain ⟨h1, h2⟩ :=
      (slotMatchesQuery_iff now t (hwf t (List.getElem?_mem hget))).mp hpred
    refine ⟨hget, h1, h2, ?_⟩
    intro j u hj hu1 hu2
    exact hmin j u hj
      ((slotMatchesQuery_iff now u (hwf u (List.getElem?_mem hj))).mpr ⟨hu1, hu2⟩)

/-- Witness for C6 on the concrete three-slot pool with a date tie. -/
theorem c6_slot_selection_policy_witness :
    SlotsWF sampleSlotPool ∧
    ((get_next_available_slot 0 sampleSlotPool = none ↔
      ∀ s ∈ sampleSlotPool,
        ¬(0 < s.slot_date ∧ s.current_bookings < s.max_capacity)) ∧
    ∀ i t, get_next_available_slot 0 sampleSlotPool = some (i, t) →
      sampleSlotPool[i]? = some t ∧ 0 < t.slot_date ∧
      t.current_bookings < t.max_capacity ∧
      ∀ j u, sampleSlotPool[j]? = some u → 0 < u.slot_date →
        u.current_bookings < u.max_capacity →
        t.slot_date ≤ u.slot_date ∧ (u.slot_date ≤ t.slot_date → i ≤ j)) :=
  ⟨by unfold SlotsWF; decide,
    c6_slot_selection_policy 0 sampleSlotPool (by unfold SlotsWF; decide)⟩

/-- The remaining capacity of the future slots is zero exactly when
every future slot is at (or beyond) capacity. -/
theorem remainingCapacity_eq_zero (now : ℤ) :
    ∀ slots : List AvailableSlot,
      remainingCapacity now slots = 0 ↔
        ∀ s ∈ slots, now < s.slot_date →
          s.max_capacity ≤ s.current_bookings := by
  intro slots
  induction slots with
  | nil => simp [remainingCapacity]
  | cons s rest ih =>
    simp only [remainingCapacity, Nat.add_eq_zero, List.mem_cons]
    constructor
    · rintro ⟨h1, h2⟩ x hx hf
      rcases hx with rfl | hx'
      · rw [if_pos hf] at h1
        omega
      · exact ih.mp h2 x hx' hf
    · intro h
      refine ⟨?_, ih.mpr fun x hx => h x (Or.inr hx)⟩
      by_cases hf : now < s.slot_date
      · rw [if_pos hf]
        have := h s (Or.inl rfl) hf
        omega
      · rw [if_neg hf]

/-- On a healthy slot table the query comes back empty exactly when
the future slots hold no remaining capacity. -/
theorem get_next_none_iff_remaining (now : ℤ) (slots : List AvailableSlot)
    (hwf : SlotsWF slots) :
    get_next_available_slot now slots = none ↔
      remainingCapacity now slots = 0 := by
  rw [get_next_none_iff, remainingCapacity_eq_zero]
  constructor
  · intro h s hs hf
    have hp := h s hs
    by_contra hcon
    push_neg at hcon
    have ht := (slotMatchesQuery_iff now s (hwf s hs)).mpr ⟨hf, hcon⟩
    rw [hp] at ht
    exact Bool.noConfusion ht
  · intro h s hs
    apply Bool.eq_false_iff.mpr
    intro hp
    obtain ⟨h1, h2⟩ := (slotMatchesQuery_iff now s (hwf s hs)).mp hp
    have := h s hs h1
    omega

/-- Booking one unit on a future under-capacity slot lowers the
remaining capacity by exactly one. -/
theorem remainingCapacity_set_bookSlot (now : ℤ) :
    ∀ (slots : List AvailableSlot) (i : ℕ) (s : AvailableSlot),
      slots[i]? = some s → now < s.slot_date →
      s.current_bookings < s.max_capacity →
      remainingCapacity now (slots.set i (bookSlot s)) + 1 =
        remainingCapacity now slots := by
  intro slots
  induction slots with
  | nil =>
    intro i s h _ _
    simp at h
  | cons a rest ih =>
    intro i s h hf hb
    cases i with
    | zero =>
      rw [List.getElem?_cons_zero] at h
      injection h with h
      subst h
      rw [List.set_cons_zero]
      simp only [remainingCapacity, bookSlot]
      rw [if_pos hf, if_pos hf]
      omega
    | succ i0 =>
      rw [List.getElem?_cons_succ] at h
      rw [List.set_cons_succ]
      simp only [remainingCapacity]
      have := ih i0 s h hf hb
      omega

/-- Booking through `bookSlot` keeps `is_available` synchronized with
`current_bookings < max_capacity`. -/
theorem SlotsWF_set_bookSlot (slots : List AvailableSlot) (i : ℕ) (s : AvailableSlot)
    (hwf : SlotsWF slots) (hmem : slots[i]? = some s)
    (hb : s.current_bookings < s.max_capacity) :
    SlotsWF (slots.set i (bookSlot s)) := by
  intro x hx
  rcases List.mem_or_eq_of_mem_set hx with hx' | rfl
  · exact hwf x hx'
  · have hw := hwf s (List.getElem?_mem hmem)
    simp only [bookSlot]
    by_cases hc : s.max_capacity ≤ s.current_bookings + 1
    · have h1 : ¬(s.current_bookings + 1 < s.max_capacity) := by omega
      simp [hc, h1]
    · have h1 : s.current_bookings + 1 < s.max_capacity := by omega
      simp [hc, h1, hw, hb]

/-- Booking through `bookSlot` preserves the capacity bound. -/
theorem capBound_set_bookSlot (slots : List AvailableSlot) (i : ℕ) (s : AvailableSlot)
    (hmem : slots[i]? = some s) (hb : s.current_bookings < s.max_capacity)
    (hcap : ∀ x ∈ slots, x.current_bookings ≤ x.max_capacity) :
    ∀ x ∈ slots.set i (bookSlot s), x.current_bookings ≤ x.max_capacity := by
  intro x hx
  rcases List.mem_or_eq_of_mem_set hx with hx' | rfl
  · exact hcap x hx'
  · show s.current_bookings + 1 ≤ s.max_capacity
    omega

/-- C2: starting from a healthy slot table whose bookings respect
capacity, any sequence of `n` allocation attempts keeps
`current_bookings ≤ max_capacity` on every slot, and the number of
successful allocations is exactly `min n R` where `R` is the total
remaining capacity of the future slots.  In particular a slot with
`max_capacity = 1` can satisfy at most one of the attempts. -/
theorem c2_capacity_and_allocation_count (now : ℤ) (n : ℕ) (st : SchedulerState)
    (hwf : SlotsWF st.slots)
    (hcap : ∀ s ∈ st.slots, s.current_bookings ≤ s.max_capacity) :
    (runAllocationAttempts now n st).1 = min n (remainingCapacity now st.slots) ∧
    ∀ s ∈ (runAllocationAttempts now n st).2.slots,
      s.current_bookings ≤ s.max_capacity := by
  induction n generalizing st with
  | zero => exact ⟨by simp [runAllocationAttempts], hcap⟩
  | succ m ih =>
    cases hsel : get_next_available_slot now st.slots with
    | none =>
      have hrem : remainingCapacity now st.slots = 0 :=
        (get_next_none_iff_remaining now st.slots hwf).mp hsel
      have hstep : schedule_appointment now 0 0 [] st = (none, st) := by
        simp [schedule_appointment, hsel]
      obtain ⟨ih1, ih2⟩ := ih st hwf hcap
      constructor
      · simp only [runAllocationAttempts, hstep]
        rw [ih1, hrem]
        simp
      · simp only [runAllocationAttempts, hstep]
        exact ih2
    | some p =>
      rcases p with ⟨i, s⟩
      obtain ⟨hget, hpred, _⟩ := get_next_spec now st.slots i s hsel
      have hw := hwf s (List.getElem?_mem hget)
      obtain ⟨hf, hb⟩ := (slotMatchesQuery_iff now s hw).mp hpred
      have h2slots : (schedule_appointment now 0 0 [] st).2.slots =
          st.slots.set i (bookSlot s) := by
        simp [schedule_appointment, hsel]
      have h1some : (schedule_appointment now 0 0 [] st).1.isSome = true := by
        simp [schedule_appointment, hsel]
      have hwf' : SlotsWF (schedule_appointment now 0 0 [] st).2.slots := by
        rw [h2slots]
        exact SlotsWF_set_bookSlot st.slots i s hwf hget hb
      have hcap' : ∀ x ∈ (schedule_appointment now 0 0 [] st).2.slots,
          x.current_bookings ≤ x.max_capacity := by
        rw [h2slots]
        exact capBound_set_bookSlot st.slots i s hget hb hcap
      have hrem : remainingCapacity now (schedule_appointment now 0 0 [] st).2.slots + 1 =
          remainingCapacity now st.slots := by
        rw [h2slots]
        exact remainingCapacity_set_bookSlot now st.slots i s hget hf hb
      obtain ⟨ih1, ih2⟩ := ih _ hwf' hcap'
      constructor
      · simp only [runAllocationAttempts]
        rw [h1some, ih1]
        simp only [if_true]
        omega
      · simp only [runAllocationAttempts]
        exact ih2

/-- Witness for C2: five attempts against the three-seat pool succeed
exactly `min 5 3 = 3` times and never overbook. -/
theorem c2_capacity_and_allocation_count_witness :
    (SlotsWF sampleSlotPool ∧
      ∀ s ∈ sampleSlotPool, s.current_bookings ≤ s.max_capacity) ∧
    ((runAllocationAttempts 0 5 ⟨sampleSlotPool, []⟩).1 =
        min 5 (remainingCapacity 0 sampleSlotPool) ∧
      ∀ s ∈ (runAllocationAttempts 0 5 ⟨sampleSlotPool, []⟩).2.slots,
        s.current_bookings ≤ s.max_capacity) :=
  ⟨⟨by unfold SlotsWF; decide, by decide⟩,
    c2_capacity_and_allocation_count 0 5 ⟨sampleSlotPool, []⟩
      (by unfold SlotsWF; decide) (by decide)⟩

/-- C7: when every future slot is at capacity, the allocator returns
`none` (no error), no appointment row is created, and the compliant
request stays `categorized` with `is_compliant = true` and no
`appointment_id`. -/
theorem c7_no_slot_terminal (now : ℤ) (student_id : ℕ) (req : RequestRow)
    (required_docs : List String) (st : SchedulerState)
    (hfull : ∀ s ∈ st.slots, now < s.slot_date →
      s.current_bookings = s.max_capacity)
    (hcomp : req.is_compliant = true) (hstatus : req.status = .categorized)
    (happt : req.appointment_id = none) :
    (schedule_appointment now student_id req.id required_docs st).1 = none ∧
    scheduling_stage now student_id req required_docs st = (req, st) ∧
    (scheduling_stage now student_id req required_docs st).1.status = .categorized ∧
    (scheduling_stage now student_id req required_docs st).1.is_compliant = true ∧
    (scheduling_stage now student_id req required_docs st).1.appointment_id = none ∧
    (scheduling_stage now student_id req required_docs st).2.appointments =
      st.appointments := by
  have hnone : get_next_available_slot now st.slots = none := by
    rw [get_next_none_iff]
    intro s hs
    apply Bool.eq_false_iff.mpr
    intro hp
    simp only [slotMatchesQuery, Bool.and_eq_true, decide_eq_true_eq] at hp
    obtain ⟨⟨_, hf⟩, hb⟩ := hp
    have := hfull s hs hf
    omega
  have hsched : schedule_appointment now student_id req.id required_docs st =
      (none, st) := by
    simp [schedule_appointment, hnone]
  have hstage : scheduling_stage now student_id req required_docs st = (req, st) := by
    simp [scheduling_stage, hcomp, hsched]
  refine ⟨by rw [hsched], hstage, ?_, ?_, ?_, ?_⟩ <;> rw [hstage]
  · exact hstatus
  · exact hcomp
  · exact happt

/-- Witness for C7 on the exhausted pool and the concrete compliant
`categorized` request. -/
theorem c7_no_slot_terminal_witness :
    ((∀ s ∈ sampleFullSlotPool, (0 : ℤ) < s.slot_date →
        s.current_bookings = s.max_capacity) ∧
      sampleCategorizedRequest.is_compliant = true ∧
      sampleCategorizedRequest.status = .categorized ∧
      sampleCategorizedRequest.appointment_id = none) ∧
    ((schedule_appointment 0 3 sampleCategorizedRequest.id ["passport"]
        ⟨sampleFullSlotPool, []⟩).1 = none ∧
      scheduling_stage 0 3 sampleCategorizedRequest ["passport"]
          ⟨sampleFullSlotPool, []⟩ =
        (sampleCategorizedRequest, ⟨sampleFullSlotPool, []⟩) ∧
      (scheduling_stage 0 3 sampleCategorizedRequest ["passport"]
          ⟨sampleFullSlotPool, []⟩).1.status = .categorized ∧
      (scheduling_stage 0 3 sampleCategorizedRequest ["passport"]
          ⟨sampleFullSlotPool, []⟩).1.is_compliant = true ∧
      (scheduling_stage 0 3 sampleCategorizedRequest ["passport"]
          ⟨sampleFullSlotPool, []⟩).1.appointment_id = none ∧
      (scheduling_stage 0 3 sampleCategorizedRequest ["passport"]
          ⟨sampleFullSlotPool, []⟩).2.appointments =
        (⟨sampleFullSlotPool, []⟩ : SchedulerState).appointments) :=
  ⟨⟨by decide, rfl, rfl, rfl⟩,
    c7_no_slot_terminal 0 3 sampleCategorizedRequest ["passport"]
      ⟨sampleFullSlotPool, []⟩ (by decide) rfl rfl rfl⟩

/-- `find?` skips a prefix in which nothing matches. -/
theorem find?_append_of_none {α : Type} (p : α → Bool) (l₁ l₂ : List α)
    (h : l₁.find? p = none) : (l₁ ++ l₂).find? p = l₂.find? p := by
  induction l₁ with
  | nil => simp
  | cons a t ih =>
    by_cases hp : p a = true
    · rw [List.find?_cons_of_pos t hp] at h
      exact Option.noConfusion h
    · rw [List.find?_cons_of_neg t hp] at h
      rw [List.cons_append, List.find?_cons_of_neg _ hp]
      exact ih h

/-- C3 counterexample: the dedup lookup keys on the subject line only.
With an existing request from `alice@example.com`, a message with the
same subject from a different sender, one hour later, is classified a
duplicate (skipped, no row created) — the claim that a differing
sender yields a new request is false. -/
theorem c3_sender_ignored_counterexample :
    extractEmailAddress "bob@other.example" ≠ "alice@example.com" ∧
    dedup_gate sampleDedupDb
        { sender := "bob@other.example", subject := "Visa extension request",
          body := "second message" } 3600 2 =
      (.skipped 1, sampleDedupDb) := by
  constructor
  · decide
  · decide

/-- C3 amended: the dedup key is the subject line alone (the sender is
ignored).  Delivering a message creates a `pending` row when no row
with that subject exists; any second message with the same subject —
from any sender — within 86400 seconds is skipped against the first
row with no new row, and one arriving at or after 86400 seconds
creates a new request. -/
theorem c3_dedup_subject_key_window (db : List RequestRow) (m1 m2 : EmailMessage)
    (t1 t2 : ℤ) (id1 id2 : ℕ)
    (hsub : m2.subject = m1.subject)
    (hnone : findExistingRequest db m1.subject = none) :
    dedup_gate db m1 t1 id1 = (.created id1, db ++ [mkPendingRequest id1 m1 t1]) ∧
    (t2 - t1 < 86400 →
      dedup_gate (db ++ [mkPendingRequest id1 m1 t1]) m2 t2 id2 =
        (.skipped id1, db ++ [mkPendingRequest id1 m1 t1])) ∧
    (86400 ≤ t2 - t1 →
      dedup_gate (db ++ [mkPendingRequest id1 m1 t1]) m2 t2 id2 =
        (.created id2,
          (db ++ [mkPendingRequest id1 m1 t1]) ++ [mkPendingRequest id2 m2 t2])) := by
  have hfind : findExistingRequest (db ++ [mkPendingRequest id1 m1 t1]) m2.subject =
      some (mkPendingRequest id1 m1 t1) := by
    unfold findExistingRequest
    rw [hsub]
    rw [find?_append_of_none _ db _ hnone]
    rw [List.find?_cons_of_pos]
    show ((mkPendingRequest id1 m1 t1).email_subject == m1.subject) = true
    simp [mkPendingRequest]
  refine ⟨?_, ?_, ?_⟩
  · unfold dedup_gate
    rw [hnone]
  · intro hwin
    unfold dedup_gate
    rw [hfind]
    show (if t2 - t1 < 86400 then
        ((.skipped id1, db ++ [mkPendingRequest id1 m1 t1]) :
          IntakeOutcome × List RequestRow)
      else (.created id2,
        (db ++ [mkPendingRequest id1 m1 t1]) ++ [mkPendingRequest id2 m2 t2])) =
      (.skipped id1, db ++ [mkPendingRequest id1 m1 t1])
    rw [if_pos hwin]
  · intro hlate
    unfold dedup_gate
    rw [hfind]
    show (if t2 - t1 < 86400 then
        ((.skipped id1, db ++ [mkPendingRequest id1 m1 t1]) :
          IntakeOutcome × List RequestRow)
      else (.created id2,
        (db ++ [mkPendingRequest id1 m1 t1]) ++ [mkPendingRequest id2 m2 t2])) =
      (.created id2,
        (db ++ [mkPendingRequest id1 m1 t1]) ++ [mkPendingRequest id2 m2 t2])
    rw [if_neg (not_lt.mpr hlate)]

/-- Witness for C3 (amended): first delivery at time 0 creates the
request; a redelivery from another sender at 3600 s is skipped; one at
90000 s creates a new request. -/
theorem c3_dedup_subject_key_window_witness :
    ((("Visa extension request" : String) = "Visa extension request") ∧
      findExistingRequest [] "Visa extension request" = none) ∧
    (dedup_gate [] ⟨"Alice <alice@example.com>", "Visa extension request", "first"⟩ 0 1 =
      (.created 1,
        [] ++ [mkPendingRequest 1
          ⟨"Alice <alice@example.com>", "Visa extension request", "first"⟩ 0]) ∧
    ((3600 : ℤ) - 0 < 86400 →
      dedup_gate ([] ++ [mkPendingRequest 1
          ⟨"Alice <alice@example.com>", "Visa extension request", "first"⟩ 0])
        ⟨"Bob <bob@other.example>", "Visa extension request", "second"⟩ 3600 2 =
        (.skipped 1,
          [] ++ [mkPendingRequest 1
            ⟨"Alice <alice@example.com>", "Visa extension request", "first"⟩ 0])) ∧
    ((86400 : ℤ) ≤ 3600 - 0 →
      dedup_gate ([] ++ [mkPendingRequest 1
          ⟨"Alice <alice@example.com>", "Visa extension request", "first"⟩ 0])
        ⟨"Bob <bob@other.example>", "Visa extension request", "second"⟩ 3600 2 =
        (.created 2,
          ([] ++ [mkPendingRequest 1
            ⟨"Alice <alice@example.com>", "Visa extension request", "first"⟩ 0]) ++
            [mkPendingRequest 2
              ⟨"Bob <bob@other.example>", "Visa extension request", "second"⟩ 3600]))) :=
  ⟨⟨rfl, rfl⟩,
    c3_dedup_subject_key_window []
      ⟨"Alice <alice@example.com>", "Visa extension request", "first"⟩
      ⟨"Bob <bob@other.example>", "Visa extension request", "second"⟩
      0 3600 1 2 rfl rfl⟩
